import Mathlib

/-
Shallow embedding of the EEIA edge control-plane core:
  src/eeia/core/models.py   (enums, Packet, Policy)
  src/eeia/core/router.py   (PolicyStore, HybridRouter)
  src/eeia/core/cache.py    (OfflineCache)
  src/eeia/security/packet_security.py (DeviceKeyStore, HMAC signing gate)
Python dicts are modelled as insertion-ordered association lists, datetimes
as a calendar-component structure with the ISO-8601 textual encoding made
explicit, JSON payloads as a JSON value tree (the stdlib json.dumps/loads
pair is an exact inverse on that tree and is modelled at the tree level),
and the HMAC primitive from Python's hmac/hashlib standard library as an
explicit function parameter (the repository's logic never depends on the
digest's internals, only on it being a function of the secret and the
serialized bytes).
-/

namespace EEIA

/-! ## Enumerations (src/eeia/core/models.py, lines 26-62) -/

/-- Environment(str, Enum): GROUND/WATER/AIR/BODY. -/
inductive Environment where
  | ground
  | water
  | air
  | body
deriving DecidableEq

/-- The `.value` string of an Environment member. -/
def Environment.value : Environment → String
  | .ground => "ground"
  | .water => "water"
  | .air => "air"
  | .body => "body"

/-- Pydantic validation of an Environment from its string value. -/
def Environment.fromValue (s : String) : Option Environment :=
  if s = "ground" then some .ground
  else if s = "water" then some .water
  else if s = "air" then some .air
  else if s = "body" then some .body
  else none

/-- Domain(str, Enum). -/
inductive Domain where
  | medical
  | industrial
  | transport
  | agriculture
  | climate
  | energy
  | generic
deriving DecidableEq

def Domain.value : Domain → String
  | .medical => "medical"
  | .industrial => "industrial"
  | .transport => "transport"
  | .agriculture => "agriculture"
  | .climate => "climate"
  | .energy => "energy"
  | .generic => "generic"

def Domain.fromValue (s : String) : Option Domain :=
  if s = "medical" then some .medical
  else if s = "industrial" then some .industrial
  else if s = "transport" then some .transport
  else if s = "agriculture" then some .agriculture
  else if s = "climate" then some .climate
  else if s = "energy" then some .energy
  else if s = "generic" then some .generic
  else none

/-- PacketPriority(str, Enum): low < normal < high < critical. -/
inductive PacketPriority where
  | low
  | normal
  | high
  | critical
deriving DecidableEq

def PacketPriority.value : PacketPriority → String
  | .low => "low"
  | .normal => "normal"
  | .high => "high"
  | .critical => "critical"

def PacketPriority.fromValue (s : String) : Option PacketPriority :=
  if s = "low" then some .low
  else if s = "normal" then some .normal
  else if s = "high" then some .high
  else if s = "critical" then some .critical
  else none

/-- PacketType(str, Enum). -/
inductive PacketType where
  | telemetry
  | alert
  | control
  | heartbeat
deriving DecidableEq

def PacketType.value : PacketType → String
  | .telemetry => "telemetry"
  | .alert => "alert"
  | .control => "control"
  | .heartbeat => "heartbeat"

def PacketType.fromValue (s : String) : Option PacketType :=
  if s = "telemetry" then some .telemetry
  else if s = "alert" then some .alert
  else if s = "control" then some .control
  else if s = "heartbeat" then some .heartbeat
  else none

theorem environment_fromValue_value (e : Environment) : Environment.fromValue e.value = some e := by
  cases e <;> rfl

theorem domain_fromValue_value (d : Domain) : Domain.fromValue d.value = some d := by
  cases d <;> rfl

theorem priority_fromValue_value (p : PacketPriority) :
    PacketPriority.fromValue p.value = some p := by
  cases p <;> rfl

theorem packetType_fromValue_value (t : PacketType) : PacketType.fromValue t.value = some t := by
  cases t <;> rfl

/-! ## Datetimes and their ISO-8601 textual encoding

`datetime.datetime` is modelled by its calendar components.  `isoformat`
renders "YYYY-MM-DDTHH:MM:SS" plus ".ffffff" exactly when the microsecond
field is nonzero (Python's datetime.isoformat, which pydantic's JSON mode
follows); parsing back is pydantic's datetime validation restricted to the
shapes the printer emits. -/

/-- The decimal digit character, chr(48+n); only applied to n < 10. -/
def digitChar (n : Nat) : Char := Char.ofNat (48 + n)

/-- The numeric value of a decimal digit character, none for other chars. -/
def charDigit (c : Char) : Option Nat :=
  if 48 ≤ c.toNat ∧ c.toNat ≤ 57 then some (c.toNat - 48) else none

theorem charDigit_digitChar (k : Nat) (h : k ≤ 9) : charDigit (digitChar k) = some k := by
  interval_cases k <;> rfl

/-- Zero-padded 2-digit rendering. -/
def pad2 (n : Nat) : List Char := [digitChar (n / 10), digitChar (n % 10)]

/-- Zero-padded 4-digit rendering. -/
def pad4 (n : Nat) : List Char :=
  [digitChar (n / 1000), digitChar (n / 100 % 10), digitChar (n / 10 % 10), digitChar (n % 10)]

/-- Zero-padded 6-digit rendering. -/
def pad6 (n : Nat) : List Char :=
  [digitChar (n / 100000), digitChar (n / 10000 % 10), digitChar (n / 1000 % 10),
   digitChar (n / 100 % 10), digitChar (n / 10 % 10), digitChar (n % 10)]

def read2 (a b : Char) : Option Nat :=
  match charDigit a, charDigit b with
  | some x, some y => some (10 * x + y)
  | _, _ => none

def read4 (a b c d : Char) : Option Nat :=
  match charDigit a, charDigit b, charDigit c, charDigit d with
  | some w, some x, some y, some z => some (1000 * w + 100 * x + 10 * y + z)
  | _, _, _, _ => none

def read6 (a b c d e f : Char) : Option Nat :=
  match charDigit a, charDigit b, charDigit c, charDigit d, charDigit e, charDigit f with
  | some u, some v, some w, some x, some y, some z =>
      some (100000 * u + 10000 * v + 1000 * w + 100 * x + 10 * y + z)
  | _, _, _, _, _, _ => none

theorem read2_pad (n : Nat) (h : n ≤ 99) :
    read2 (digitChar (n / 10)) (digitChar (n % 10)) = some n := by
  unfold read2
  rw [charDigit_digitChar _ (by omega), charDigit_digitChar _ (by omega)]
  exact congrArg some (by omega)

theorem read4_pad (n : Nat) (h : n ≤ 9999) :
    read4 (digitChar (n / 1000)) (digitChar (n / 100 % 10)) (digitChar (n / 10 % 10))
      (digitChar (n % 10)) = some n := by
  unfold read4
  rw [charDigit_digitChar _ (by omega), charDigit_digitChar _ (by omega),
    charDigit_digitChar _ (by omega), charDigit_digitChar _ (by omega)]
  exact congrArg some (by omega)

theorem read6_pad (n : Nat) (h : n ≤ 999999) :
    read6 (digitChar (n / 100000)) (digitChar (n / 10000 % 10)) (digitChar (n / 1000 % 10))
      (digitChar (n / 100 % 10)) (digitChar (n / 10 % 10)) (digitChar (n % 10)) = some n := by
  unfold read6
  rw [charDigit_digitChar _ (by omega), charDigit_digitChar _ (by omega),
    charDigit_digitChar _ (by omega), charDigit_digitChar _ (by omega),
    charDigit_digitChar _ (by omega), charDigit_digitChar _ (by omega)]
  exact congrArg some (by omega)

/-- A naive datetime (no tzinfo), as Packet.created_at carries in the tests. -/
structure DateTime where
  year : Nat
  month : Nat
  day : Nat
  hour : Nat
  minute : Nat
  second : Nat
  microsecond : Nat
deriving DecidableEq

/-- The invariants Python's datetime constructor enforces on its components
(day upper bound relaxed to 31; the printer/parser pair below does not look
at month lengths). -/
def DateTime.Valid (d : DateTime) : Prop :=
  1 ≤ d.year ∧ d.year ≤ 9999 ∧ 1 ≤ d.month ∧ d.month ≤ 12 ∧ 1 ≤ d.day ∧ d.day ≤ 31 ∧
    d.hour ≤ 23 ∧ d.minute ≤ 59 ∧ d.second ≤ 59 ∧ d.microsecond ≤ 999999

instance (d : DateTime) : Decidable d.Valid := by
  unfold DateTime.Valid
  infer_instance

/-- datetime.isoformat(): "YYYY-MM-DDTHH:MM:SS[.ffffff]", the fractional part
present exactly when microsecond is nonzero. -/
def DateTime.isoformatChars (d : DateTime) : List Char :=
  pad4 d.year ++ '-' :: pad2 d.month ++ '-' :: pad2 d.day ++ 'T' :: pad2 d.hour ++
    ':' :: pad2 d.minute ++ ':' :: pad2 d.second ++
      (if d.microsecond = 0 then [] else '.' :: pad6 d.microsecond)

def DateTime.isoformat (d : DateTime) : String := String.mk d.isoformatChars

/-- Pydantic's datetime validation, on the shapes `isoformat` emits. -/
def DateTime.fromIsoChars : List Char → Option DateTime
  | y1 :: y2 :: y3 :: y4 :: '-' :: m1 :: m2 :: '-' :: d1 :: d2 :: 'T' :: h1 :: h2 ::
      ':' :: n1 :: n2 :: ':' :: s1 :: s2 :: rest =>
    match read4 y1 y2 y3 y4, read2 m1 m2, read2 d1 d2, read2 h1 h2, read2 n1 n2,
        read2 s1 s2 with
    | some y, some mo, some da, some h, some mi, some s =>
      match rest with
      | [] => some ⟨y, mo, da, h, mi, s, 0⟩
      | '.' :: u1 :: u2 :: u3 :: u4 :: u5 :: u6 :: [] =>
        match read6 u1 u2 u3 u4 u5 u6 with
        | some us => some ⟨y, mo, da, h, mi, s, us⟩
        | none => none
      | _ => none
    | _, _, _, _, _, _ => none
  | _ => none

def DateTime.fromIso (s : String) : Option DateTime := DateTime.fromIsoChars s.toList

theorem DateTime.fromIso_isoformat (d : DateTime) (h : d.Valid) :
    DateTime.fromIso d.isoformat = some d := by
  obtain ⟨y, mo, da, hh, mi, s, us⟩ := d
  obtain ⟨h1, h2, h3, h4, h5, h6, h7, h8, h9, h10⟩ := h
  dsimp only at h1 h2 h3 h4 h5 h6 h7 h8 h9 h10
  unfold DateTime.fromIso
  by_cases hus : us = 0
  · subst hus
    have hfmt : (DateTime.isoformat ⟨y, mo, da, hh, mi, s, 0⟩).toList =
        digitChar (y / 1000) :: digitChar (y / 100 % 10) :: digitChar (y / 10 % 10) ::
          digitChar (y % 10) :: '-' :: digitChar (mo / 10) :: digitChar (mo % 10) :: '-' ::
          digitChar (da / 10) :: digitChar (da % 10) :: 'T' :: digitChar (hh / 10) ::
          digitChar (hh % 10) :: ':' :: digitChar (mi / 10) :: digitChar (mi % 10) :: ':' ::
          digitChar (s / 10) :: digitChar (s % 10) :: [] := rfl
    rw [hfmt]
    simp only [DateTime.fromIsoChars]
    rw [read4_pad y (by omega), read2_pad mo (by omega), read2_pad da (by omega),
      read2_pad hh (by omega), read2_pad mi (by omega), read2_pad s (by omega)]
  · have hfmt : (DateTime.isoformat ⟨y, mo, da, hh, mi, s, us⟩).toList =
        digitChar (y / 1000) :: digitChar (y / 100 % 10) :: digitChar (y / 10 % 10) ::
          digitChar (y % 10) :: '-' :: digitChar (mo / 10) :: digitChar (mo % 10) :: '-' ::
          digitChar (da / 10) :: digitChar (da % 10) :: 'T' :: digitChar (hh / 10) ::
          digitChar (hh % 10) :: ':' :: digitChar (mi / 10) :: digitChar (mi % 10) :: ':' ::
          digitChar (s / 10) :: digitChar (s % 10) :: '.' :: digitChar (us / 100000) ::
          digitChar (us / 10000 % 10) :: digitChar (us / 1000 % 10) :: digitChar (us / 100 % 10) ::
          digitChar (us / 10 % 10) :: digitChar (us % 10) :: [] := by
      show DateTime.isoformatChars ⟨y, mo, da, hh, mi, s, us⟩ = _
      unfold DateTime.isoformatChars
      rw [if_neg hus]
      rfl
    rw [hfmt]
    simp only [DateTime.fromIsoChars]
    rw [read4_pad y (by omega), read2_pad mo (by omega), read2_pad da (by omega),
      read2_pad hh (by omega), read2_pad mi (by omega), read2_pad s (by omega),
      read6_pad us (by omega)]

/-! ## JSON-shaped payload values

`Packet.data` and `Packet.metadata` are Python dicts (`Dict[str, Any]`)
holding JSON-serializable values; a dict is an insertion-ordered association
list.  `json.dumps`/`json.loads` are exact inverses on this tree and are
modelled at the tree level. -/

inductive Json where
  | null
  | bool (b : Bool)
  | num (n : Int)
  | str (s : String)
  | arr (items : List Json)
  | obj (fields : List (String × Json))

/-- Python dict lookup `d[k]` / `d.get(k)` over the association list. -/
def jsonLookup : List (String × Json) → String → Option Json
  | [], _ => none
  | (k, v) :: rest, key => if k = key then some v else jsonLookup rest key

mutual

/-- Python `repr` of a JSON-shaped value: dict entries in insertion order as
`\x7b'k': v, ...\x7d`, strings in single quotes (escaping of quote characters
inside the string is not modelled), `True`/`False`/`None` for the atoms. -/
def Json.pyRepr : Json → String
  | .null => "None"
  | .bool true => "True"
  | .bool false => "False"
  | .num n => toString n
  | .str s => "'" ++ s ++ "'"
  | .arr items => "[" ++ Json.pyReprItems items ++ "]"
  | .obj fields => "\x7b" ++ Json.pyReprFields fields ++ "\x7d"

def Json.pyReprItems : List Json → String
  | [] => ""
  | [x] => Json.pyRepr x
  | x :: y :: rest => Json.pyRepr x ++ ", " ++ Json.pyReprItems (y :: rest)

def Json.pyReprFields : List (String × Json) → String
  | [] => ""
  | [(k, v)] => "'" ++ k ++ "': " ++ Json.pyRepr v
  | (k, v) :: y :: rest => "'" ++ k ++ "': " ++ Json.pyRepr v ++ ", " ++ Json.pyReprFields (y :: rest)

end

/-! ## Packet (src/eeia/core/models.py, lines 126-192) -/

structure Packet where
  packet_id : String
  device_id : String
  created_at : DateTime
  received_at : Option DateTime
  env : Environment
  domain : Domain
  packet_type : PacketType
  priority : PacketPriority
  size_bytes : Nat
  data : List (String × Json)
  metadata : List (String × Json)

/-- The constraints pydantic enforces at Packet construction: constr lengths on
the two identifiers, conint(ge=0, le=10_000_000) on size_bytes, and datetime
validity of the timestamps. -/
def Packet.Valid (p : Packet) : Prop :=
  8 ≤ p.packet_id.length ∧ p.packet_id.length ≤ 64 ∧
    3 ≤ p.device_id.length ∧ p.device_id.length ≤ 64 ∧
    p.size_bytes ≤ 10000000 ∧ p.created_at.Valid ∧
    (match p.received_at with
     | some r => r.Valid
     | none => True)

/-- Packet.model_dump(mode="json"): every field rendered to its JSON form,
datetimes as ISO-8601 strings, enums as their string values. -/
def Packet.model_dump (p : Packet) : Json :=
  .obj [("packet_id", .str p.packet_id),
    ("device_id", .str p.device_id),
    ("created_at", .str p.created_at.isoformat),
    ("received_at", match p.received_at with
      | none => .null
      | some r => .str r.isoformat),
    ("env", .str p.env.value),
    ("domain", .str p.domain.value),
    ("packet_type", .str p.packet_type.value),
    ("priority", .str p.priority.value),
    ("size_bytes", .num p.size_bytes),
    ("data", .obj p.data),
    ("metadata", .obj p.metadata)]

/-- The field names of Packet (Config.extra = "forbid" rejects others). -/
def packetKeys : List String :=
  ["packet_id", "device_id", "created_at", "received_at", "env", "domain",
   "packet_type", "priority", "size_bytes", "data", "metadata"]

def decodeStr : Option Json → Option String
  | some (.str s) => some s
  | _ => none

def decodeDate : Option Json → Option DateTime
  | some (.str s) => DateTime.fromIso s
  | _ => none

def decodeOptDate : Option Json → Option (Option DateTime)
  | some .null => some none
  | some (.str s) => (DateTime.fromIso s).map some
  | _ => none

def decodeMap : Option Json → Option (List (String × Json))
  | some (.obj fs) => some fs
  | _ => none

def decodeSize : Option Json → Option Nat
  | some (.num n) => if 0 ≤ n ∧ n ≤ 10000000 then some n.toNat else none
  | _ => none

/-- Packet.model_validate on a decoded JSON document: rejects non-objects and
unknown keys (extra="forbid"), then validates each field.  The defaulting of
absent optional fields is not modelled: every dump this development feeds it
carries all eleven keys. -/
def Packet.model_validate (j : Json) : Option Packet :=
  match j with
  | .obj fs =>
    if fs.all (fun kv => packetKeys.contains kv.1) then
      match decodeStr (jsonLookup fs "packet_id"), decodeStr (jsonLookup fs "device_id"),
          decodeDate (jsonLookup fs "created_at"), decodeOptDate (jsonLookup fs "received_at"),
          (decodeStr (jsonLookup fs "env")).bind Environment.fromValue,
          (decodeStr (jsonLookup fs "domain")).bind Domain.fromValue,
          (decodeStr (jsonLookup fs "packet_type")).bind PacketType.fromValue,
          (decodeStr (jsonLookup fs "priority")).bind PacketPriority.fromValue,
          decodeSize (jsonLookup fs "size_bytes"),
          decodeMap (jsonLookup fs "data"), decodeMap (jsonLookup fs "metadata") with
      | some pid, some did, some ca, some ra, some env, some dom, some pt, some pr,
          some sz, some dt, some md =>
        if (8 ≤ pid.length ∧ pid.length ≤ 64) ∧ (3 ≤ did.length ∧ did.length ≤ 64) then
          some ⟨pid, did, ca, ra, env, dom, pt, pr, sz, dt, md⟩
        else none
      | _, _, _, _, _, _, _, _, _, _, _ => none
    else none
  | _ => none

/-- Lossless serialization: validating a dumped packet restores it field for
field, nested payload maps included. -/
theorem Packet.model_validate_model_dump (p : Packet) (h : p.Valid) :
    Packet.model_validate p.model_dump = some p := by
  obtain ⟨pid, did, ca, ra, env, dom, pt, pr, sz, dt, md⟩ := p
  obtain ⟨v1, v2, v3, v4, v5, v6, v7⟩ := h
  dsimp only at v1 v2 v3 v4 v5 v6 v7
  have hsz : (0 : Int) ≤ (sz : Int) ∧ (sz : Int) ≤ 10000000 := by
    constructor <;> omega
  cases ra with
  | none =>
    simp [Packet.model_dump, Packet.model_validate, jsonLookup, packetKeys, decodeStr,
      decodeDate, decodeOptDate, decodeMap, decodeSize, guard, DateTime.fromIso_isoformat ca v6,
      environment_fromValue_value, domain_fromValue_value, packetType_fromValue_value,
      priority_fromValue_value, v1, v2, v3, v4, v5, hsz.1, hsz.2]
  | some r =>
    dsimp only at v7
    simp [Packet.model_dump, Packet.model_validate, jsonLookup, packetKeys, decodeStr,
      decodeDate, decodeOptDate, decodeMap, decodeSize, guard, DateTime.fromIso_isoformat ca v6,
      DateTime.fromIso_isoformat r v7, environment_fromValue_value, domain_fromValue_value,
      packetType_fromValue_value, priority_fromValue_value, v1, v2, v3, v4, v5,
      hsz.1, hsz.2]

/-! ## Offline cache (src/eeia/core/cache.py)

The sqlite table `offline_packets` is a list of rows plus the
AUTOINCREMENT counter; `payload_json` holds the dumped packet (text and
tree related by the stdlib json.dumps/json.loads inverse pair, modelled at
the tree level). -/

/-- CachedPacket (cache.py lines 30-41). -/
structure CachedPacket where
  internal_id : Nat
  packet : Packet

/-- One row of the `offline_packets` table. -/
structure OfflineRow where
  rowId : Nat
  packet_id : String
  device_id : String
  created_at : String
  payload_json : Json

structure OfflineCache where
  nextId : Nat
  rows : List OfflineRow

/-- enqueue (cache.py lines 83-105): INSERT of the denormalized columns and
the full dump; `created_at` column takes payload["created_at"], the ISO
string the dump holds. -/
def OfflineCache.enqueue (c : OfflineCache) (p : Packet) : OfflineCache :=
  { nextId := c.nextId + 1,
    rows := c.rows ++
      [{ rowId := c.nextId, packet_id := p.packet_id, device_id := p.device_id,
         created_at := p.created_at.isoformat, payload_json := p.model_dump }] }

def insertById (r : OfflineRow) : List OfflineRow → List OfflineRow
  | [] => [r]
  | x :: xs => if r.rowId ≤ x.rowId then r :: x :: xs else x :: insertById r xs

/-- The ORDER BY id ASC of dequeue's SELECT. -/
def sortById : List OfflineRow → List OfflineRow
  | [] => []
  | x :: xs => insertById x (sortById xs)

/-- Packet.model_validate over each fetched row; a row whose payload does not
validate raises (pydantic ValidationError), modelled as none. -/
def parseRows : List OfflineRow → Option (List CachedPacket)
  | [] => some []
  | r :: rest =>
    match Packet.model_validate r.payload_json, parseRows rest with
    | some p, some l => some (⟨r.rowId, p⟩ :: l)
    | _, _ => none

/-- dequeue_batch (cache.py lines 107-132): SELECT id, payload_json ORDER BY
id ASC LIMIT `limit`, then revalidate each payload; non-destructive. -/
def OfflineCache.dequeue_batch (c : OfflineCache) (limit : Nat) : Option (List CachedPacket) :=
  parseRows ((sortById c.rows).take limit)

/-- The table's standing invariant: ids ascend (AUTOINCREMENT) and stay below
the counter. -/
def OfflineCache.WF (c : OfflineCache) : Prop :=
  c.rows.Pairwise (fun a b => a.rowId < b.rowId) ∧ ∀ r ∈ c.rows, r.rowId < c.nextId

/-! ## Policies and the hybrid router (src/eeia/core/models.py lines 195-253,
src/eeia/core/router.py) -/

structure Policy where
  policy_id : String
  name : String
  match_environment : Option Environment := none
  match_domain : Option Domain := none
  min_priority : Option PacketPriority := none
  target_endpoint : Option String := none
  store_in_timeseries : Bool := true
  store_in_object_storage : Bool := false
  require_auth : Bool := true
  require_integrity_check : Bool := true
  require_encryption : Bool := true

structure RoutingDecision where
  packet : Packet
  policy : Option Policy
  target_endpoint : Option String
  store_in_timeseries : Bool
  store_in_object_storage : Bool
  should_forward : Bool := true
  reasons : List String := []

structure PolicyStore where
  policies : List Policy

/-- remove (router.py lines 83-85): keep every policy whose id differs. -/
def PolicyStore.remove (s : PolicyStore) (policy_id : String) : PolicyStore :=
  ⟨s.policies.filter (fun p => p.policy_id != policy_id)⟩

/-- upsert (router.py lines 70-77): remove by id, then append. -/
def PolicyStore.upsert (s : PolicyStore) (policy : Policy) : PolicyStore :=
  ⟨(s.remove policy.policy_id).policies ++ [policy]⟩

/-- all (router.py lines 87-89): a copy of the list (value semantics here). -/
def PolicyStore.all (s : PolicyStore) : List Policy := s.policies

/-- _priority_order (router.py lines 119-127). -/
def priority_order : PacketPriority → Nat
  | .low => 0
  | .normal => 1
  | .high => 2
  | .critical => 3

/-- First `continue` guard of match_for_packet: match_environment set and
differing from packet.env (enum identity = value equality). -/
def envSkip (pol : Policy) (p : Packet) : Bool :=
  match pol.match_environment with
  | some e => decide (e ≠ p.env)
  | none => false

def domainSkip (pol : Policy) (p : Packet) : Bool :=
  match pol.match_domain with
  | some d => decide (d ≠ p.domain)
  | none => false

def prioritySkip (pol : Policy) (p : Packet) : Bool :=
  match pol.min_priority with
  | some mp => decide (priority_order p.priority < priority_order mp)
  | none => false

/-- The scan of match_for_packet (router.py lines 93-116): first policy none
of the three guards skips. -/
def matchFirst (p : Packet) : List Policy → Option Policy
  | [] => none
  | pol :: rest =>
    if envSkip pol p then matchFirst p rest
    else if domainSkip pol p then matchFirst p rest
    else if prioritySkip pol p then matchFirst p rest
    else some pol

def PolicyStore.match_for_packet (s : PolicyStore) (p : Packet) : Option Policy :=
  matchFirst p s.policies

/-- HybridRouter.route (router.py lines 146-197), as a function of the
router's policy store.  `str(policy.target_endpoint) if policy.target_endpoint
else None` is the identity on the optional URL string. -/
def HybridRouter.route (store : PolicyStore) (p : Packet) : RoutingDecision :=
  match store.match_for_packet p with
  | some policy =>
    { packet := p, policy := some policy,
      target_endpoint := policy.target_endpoint,
      store_in_timeseries := policy.store_in_timeseries,
      store_in_object_storage := policy.store_in_object_storage,
      should_forward := true,
      reasons := ["matched_policy:" ++ policy.policy_id] }
  | none =>
    { packet := p, policy := none, target_endpoint := none,
      store_in_timeseries :=
        decide (p.packet_type = .telemetry ∨ p.packet_type = .heartbeat ∨
          p.packet_type = .alert),
      store_in_object_storage := decide (p.packet_type = .alert),
      should_forward := true,
      reasons := ["no_matching_policy"] }

/-! ## Zero-Trust security core (src/eeia/security/packet_security.py)

The HMAC-SHA256 primitive (Python's hmac.new(secret, msg,
hashlib.sha256).hexdigest()) is standard-library crypto, not repository
code: it enters the embedding as an explicit function parameter from the
key's secret bytes and the serialized message to the hex digest. -/

abbrev HmacFn := List Nat → String → String

/-- DeviceKey (packet_security.py lines 24-30); `secret` is opaque bytes. -/
structure DeviceKey where
  device_id : String
  key_id : String
  secret : List Nat
  algorithm : String := "HS256"
  active : Bool := true

/-- DeviceKeyStore (lines 33-52): one key per device in a dict. -/
structure DeviceKeyStore where
  keys_by_device : List (String × DeviceKey)

def keyLookup : List (String × DeviceKey) → String → Option DeviceKey
  | [], _ => none
  | (k, v) :: rest, key => if k = key then some v else keyLookup rest key

/-- register: dict assignment, replacing in place or appending. -/
def DeviceKeyStore.register (s : DeviceKeyStore) (key : DeviceKey) : DeviceKeyStore :=
  if s.keys_by_device.any (fun kv => kv.1 = key.device_id) then
    ⟨s.keys_by_device.map (fun kv => if kv.1 = key.device_id then (kv.1, key) else kv)⟩
  else
    ⟨s.keys_by_device ++ [(key.device_id, key)]⟩

/-- revoke: flips the active flag of the device's key, if present. -/
def DeviceKeyStore.revoke (s : DeviceKeyStore) (device_id : String) : DeviceKeyStore :=
  ⟨s.keys_by_device.map (fun kv =>
    if kv.1 = device_id then (kv.1, { kv.2 with active := false }) else kv)⟩

/-- get_active_key (lines 48-52): none when absent or inactive. -/
def DeviceKeyStore.get_active_key (s : DeviceKeyStore) (device_id : String) : Option DeviceKey :=
  match keyLookup s.keys_by_device device_id with
  | none => none
  | some key => if key.active then some key else none

/-- _serialize_packet_for_signing (lines 59-78): the fixed field order joined
by "|"; the two payload dicts enter through Python repr (insertion order).
The final .encode("utf-8") is injective and elided: equality of these strings
is equality of the signed bytes. -/
def serialize_packet_for_signing (p : Packet) : String :=
  String.intercalate "|"
    [p.packet_id, p.device_id, p.created_at.isoformat, p.env.value, p.domain.value,
     p.packet_type.value, p.priority.value, toString p.size_bytes,
     Json.pyRepr (.obj p.data), Json.pyRepr (.obj p.metadata)]

/-- sign_packet_hmac (lines 81-86); ValueError modelled as Except.error. -/
def sign_packet_hmac (hmacFn : HmacFn) (p : Packet) (key : DeviceKey) : Except String String :=
  if key.algorithm ≠ "HS256" then
    .error ("Unsupported algorithm for HMAC: " ++ key.algorithm)
  else
    .ok (hmacFn key.secret (serialize_packet_for_signing p))

/-- verify_packet_hmac (lines 89-94): recompute and compare
(hmac.compare_digest is constant-time string equality). -/
def verify_packet_hmac (hmacFn : HmacFn) (p : Packet) (signature : String)
    (key : DeviceKey) : Except String Bool :=
  if key.algorithm ≠ "HS256" then
    .error ("Unsupported algorithm for HMAC: " ++ key.algorithm)
  else
    match sign_packet_hmac hmacFn p key with
    | .error e => .error e
    | .ok expected => .ok (expected == signature)

/-- RiskScoringEngine (lines 104-128); float scores and thresholds modelled
as rationals. -/
structure RiskScoringEngine where
  scorer : Option (Packet → Rat) := none
  threshold_block : Rat := 9/10
  threshold_audit : Rat := 7/10

def RiskScoringEngine.score (e : RiskScoringEngine) (p : Packet) : Option Rat :=
  match e.scorer with
  | none => none
  | some f => some (f p)

def RiskScoringEngine.should_block (e : RiskScoringEngine) (p : Packet) : Bool :=
  match e.score p with
  | some s => decide (e.threshold_block ≤ s)
  | none => false

def RiskScoringEngine.should_strict_audit (e : RiskScoringEngine) (p : Packet) : Bool :=
  match e.score p with
  | some s => decide (e.threshold_audit ≤ s)
  | none => false

/-- global_risk_engine (line 131): a default engine with no scorer. -/
def global_risk_engine : RiskScoringEngine := {}

/-- EntryValidationResult (lines 138-145). -/
structure EntryValidationResult where
  ok : Bool
  reason : Option String := none
  risk_score : Option Rat := none
  strict_audit : Bool := false
  blocked : Bool := false
  extra : List (String × String) := []

/-- The scoring tail of validate_packet_entry (lines 178-197). -/
def riskStep (risk_engine : RiskScoringEngine) (p : Packet) : EntryValidationResult :=
  let score := risk_engine.score p
  let blocked := match score with
    | some _ => risk_engine.should_block p
    | none => false
  let strict_audit := match score with
    | some _ => risk_engine.should_strict_audit p
    | none => false
  if blocked then
    { ok := false, reason := some "ml_risk_block", blocked := true,
      risk_score := score, strict_audit := strict_audit }
  else
    { ok := true, reason := none, blocked := false,
      strict_audit := strict_audit, risk_score := score }

/-- validate_packet_entry (lines 148-197): key lookup, then signature check
only when a signature header is present, then the scoring gate. -/
def validate_packet_entry (hmacFn : HmacFn) (p : Packet) (signature : Option String)
    (key_store : DeviceKeyStore) (risk_engine : RiskScoringEngine) :
    Except String EntryValidationResult :=
  match key_store.get_active_key p.device_id with
  | none => .ok { ok := false, reason := some "unknown_or_inactive_device", blocked := true }
  | some key =>
    match signature with
    | none => .ok (riskStep risk_engine p)
    | some sig =>
      match verify_packet_hmac hmacFn p sig key with
      | .error e => .error e
      | .ok true => .ok (riskStep risk_engine p)
      | .ok false => .ok { ok := false, reason := some "invalid_signature", blocked := true }

/-! ## Matching characterization (claims C3, C4, C5, C9) -/

/-- A policy passes when none of the three source guards skips it. -/
def passes (pol : Policy) (p : Packet) : Bool :=
  !(envSkip pol p || domainSkip pol p || prioritySkip pol p)

/-- The skip condition in the spec's words: a predicate is set and fails. -/
def SkipsSpec (pol : Policy) (p : Packet) : Prop :=
  (∃ e, pol.match_environment = some e ∧ e ≠ p.env) ∨
    (∃ d, pol.match_domain = some d ∧ d ≠ p.domain) ∨
    (∃ mp, pol.min_priority = some mp ∧ priority_order p.priority < priority_order mp)

theorem SkipsSpec_iff_passes_false (pol : Policy) (p : Packet) :
    SkipsSpec pol p ↔ passes pol p = false := by
  unfold SkipsSpec passes envSkip domainSkip prioritySkip
  cases pol.match_environment <;> cases pol.match_domain <;> cases pol.min_priority <;>
    simp <;> tauto

theorem matchFirst_eq_find (p : Packet) (l : List Policy) :
    matchFirst p l = l.find? (fun pol => passes pol p) := by
  induction l with
  | nil => rfl
  | cons pol rest ih =>
    simp only [matchFirst, List.find?]
    cases h1 : envSkip pol p
    · cases h2 : domainSkip pol p
      · cases h3 : prioritySkip pol p
        · simp [passes, h1, h2, h3]
        · simp [passes, h1, h2, h3, ih]
      · simp [passes, h1, h2, ih]
    · simp [passes, h1, ih]

theorem find?_split {α : Type} (q : α → Bool) (l : List α) (a : α) (h : l.find? q = some a) :
    ∃ l₁ l₂, l = l₁ ++ a :: l₂ ∧ (∀ x ∈ l₁, q x = false) ∧ q a = true := by
  induction l with
  | nil => simp [List.find?] at h
  | cons x xs ih =>
    cases hx : q x
    · simp only [List.find?, hx] at h
      obtain ⟨l₁, l₂, hl, hq, ha⟩ := ih h
      refine ⟨x :: l₁, l₂, by simp [hl], ?_, ha⟩
      intro z hz
      rcases List.mem_cons.mp hz with hz | hz
      · exact hz ▸ hx
      · exact hq z hz
    · simp only [List.find?, hx, Option.some.injEq] at h
      exact ⟨[], xs, by simp [h], by simp, h ▸ hx⟩

/-- C3: match_for_packet returns the first policy of the ordered collection
passing all three optional predicates — a policy is skipped exactly when
match_environment is set and differs, match_domain is set and differs, or
min_priority is set and the packet's priority ordinal (low=0, normal=1,
high=2, critical=3) is strictly below it — and returns none exactly when
every policy is skipped. -/
theorem match_for_packet_first_match (s : PolicyStore) (p : Packet) :
    (s.match_for_packet p = none ↔ ∀ pol ∈ s.policies, SkipsSpec pol p) ∧
    (∀ pol, s.match_for_packet p = some pol →
      ¬ SkipsSpec pol p ∧
        ∃ l₁ l₂, s.policies = l₁ ++ pol :: l₂ ∧ ∀ q ∈ l₁, SkipsSpec q p) ∧
    priority_order .low = 0 ∧ priority_order .normal = 1 ∧
    priority_order .high = 2 ∧ priority_order .critical = 3 := by
  refine ⟨?_, ?_, rfl, rfl, rfl, rfl⟩
  · rw [PolicyStore.match_for_packet, matchFirst_eq_find, List.find?_eq_none]
    constructor
    · intro h pol hmem
      rw [SkipsSpec_iff_passes_false]
      exact Bool.not_eq_true _ ▸ h pol hmem
    · intro h pol hmem
      rw [Bool.not_eq_true]
      exact (SkipsSpec_iff_passes_false pol p).mp (h pol hmem)
  · intro pol hfind
    rw [PolicyStore.match_for_packet, matchFirst_eq_find] at hfind
    obtain ⟨l₁, l₂, hl, hskip, hpass⟩ := find?_split _ _ _ hfind
    refine ⟨?_, l₁, l₂, hl, ?_⟩
    · rw [SkipsSpec_iff_passes_false, hpass]
      simp
    · intro q hq
      rw [SkipsSpec_iff_passes_false]
      exact hskip q hq

/-- C4: upsert leaves the collection equal to the previous one with every
policy of the same id removed, then the new policy appended at the end (a
replaced policy moves to the end of the match order). -/
theorem upsert_removes_then_appends (s : PolicyStore) (q : Policy) :
    (s.upsert q).policies =
      s.policies.filter (fun p => p.policy_id != q.policy_id) ++ [q] ∧
    (s.upsert q).policies.getLast? = some q := by
  refine ⟨rfl, ?_⟩
  simp [PolicyStore.upsert, PolicyStore.remove]

/-- C5: with no matching policy, route returns policy none, timeseries
storage exactly for telemetry/heartbeat/alert, object storage exactly for
alert, no target endpoint, should_forward true, and the reason tag
no_matching_policy. -/
theorem route_no_match_default (store : PolicyStore) (p : Packet)
    (h : store.match_for_packet p = none) :
    (HybridRouter.route store p).policy = none ∧
    ((HybridRouter.route store p).store_in_timeseries = true ↔
      (p.packet_type = .telemetry ∨ p.packet_type = .heartbeat ∨
        p.packet_type = .alert)) ∧
    ((HybridRouter.route store p).store_in_object_storage = true ↔
      p.packet_type = .alert) ∧
    (HybridRouter.route store p).target_endpoint = none ∧
    (HybridRouter.route store p).should_forward = true ∧
    (HybridRouter.route store p).reasons = ["no_matching_policy"] := by
  unfold HybridRouter.route
  rw [h]
  refine ⟨rfl, ?_, ?_, rfl, rfl, rfl⟩ <;> simp

/-- A fixed valid packet used to instantiate hypothesis-bearing theorems. -/
def samplePacket : Packet :=
  { packet_id := "pkt-0001", device_id := "dev-1",
    created_at := ⟨2024, 1, 2, 3, 4, 5, 0⟩, received_at := none,
    env := .ground, domain := .medical, packet_type := .telemetry,
    priority := .normal, size_bytes := 10,
    data := [("a", .str "1"), ("b", .str "2")], metadata := [] }

/-- Witness for C5 at the empty registry and a concrete telemetry packet. -/
theorem route_no_match_default_witness :
    (HybridRouter.route ⟨[]⟩ samplePacket).policy = none ∧
    ((HybridRouter.route ⟨[]⟩ samplePacket).store_in_timeseries = true ↔
      (samplePacket.packet_type = .telemetry ∨ samplePacket.packet_type = .heartbeat ∨
        samplePacket.packet_type = .alert)) ∧
    ((HybridRouter.route ⟨[]⟩ samplePacket).store_in_object_storage = true ↔
      samplePacket.packet_type = .alert) ∧
    (HybridRouter.route ⟨[]⟩ samplePacket).target_endpoint = none ∧
    (HybridRouter.route ⟨[]⟩ samplePacket).should_forward = true ∧
    (HybridRouter.route ⟨[]⟩ samplePacket).reasons = ["no_matching_policy"] :=
  route_no_match_default ⟨[]⟩ samplePacket rfl

/-- C9: route always produces should_forward = true, for every packet and
every registry state, matched or not. -/
theorem route_always_should_forward (store : PolicyStore) (p : Packet) :
    (HybridRouter.route store p).should_forward = true := by
  unfold HybridRouter.route
  cases store.match_for_packet p <;> rfl

/-! ## Offline-queue round trip (claim C2) -/

theorem sortById_eq_self (l : List OfflineRow)
    (h : l.Pairwise (fun a b => a.rowId < b.rowId)) : sortById l = l := by
  induction l with
  | nil => rfl
  | cons x xs ih =>
    rw [sortById, ih (List.Pairwise.of_cons h)]
    cases xs with
    | nil => rfl
    | cons y ys =>
      have hxy : x.rowId < y.rowId := (List.pairwise_cons.mp h).1 y (by simp)
      simp [insertById, Nat.le_of_lt hxy]

theorem parseRows_append_one (l : List OfflineRow) (r : OfflineRow) (p : Packet)
    (h : ∀ x ∈ l, (Packet.model_validate x.payload_json).isSome)
    (hr : Packet.model_validate r.payload_json = some p) :
    ∃ cl, parseRows (l ++ [r]) = some (cl ++ [⟨r.rowId, p⟩]) := by
  induction l with
  | nil => exact ⟨[], by simp [parseRows, hr]⟩
  | cons x xs ih =>
    obtain ⟨px, hpx⟩ := Option.isSome_iff_exists.mp (h x (by simp))
    obtain ⟨cl, hcl⟩ := ih (fun y hy => h y (by simp [hy]))
    exact ⟨⟨x.rowId, px⟩ :: cl, by simp [parseRows, hpx, hcl]⟩

/-- C2: the offline queue round trip is lossless: enqueueing a valid packet
into a well-formed queue whose stored rows all validate, then reading a
batch large enough, yields an entry carrying the freshly assigned sequence
number whose packet equals the original field for field, nested payload maps
included. -/
theorem enqueue_dequeue_roundtrip (c : OfflineCache) (p : Packet) (limit : Nat)
    (hp : p.Valid) (hwf : c.WF) (hlim : c.rows.length < limit)
    (hrows : ∀ r ∈ c.rows, (Packet.model_validate r.payload_json).isSome) :
    ∃ entries, (c.enqueue p).dequeue_batch limit = some entries ∧
      ∃ e ∈ entries, e.internal_id = c.nextId ∧ e.packet = p := by
  unfold OfflineCache.dequeue_batch OfflineCache.enqueue
  have hsorted : (c.rows ++
      [{ rowId := c.nextId, packet_id := p.packet_id, device_id := p.device_id,
         created_at := p.created_at.isoformat,
         payload_json := p.model_dump : OfflineRow }]).Pairwise
        (fun a b => a.rowId < b.rowId) := by
    rw [List.pairwise_append]
    refine ⟨hwf.1, by simp, ?_⟩
    intro a ha b hb
    simp only [List.mem_singleton] at hb
    subst hb
    exact hwf.2 a ha
  rw [sortById_eq_self _ hsorted]
  rw [List.take_of_length_le (by simp; omega)]
  obtain ⟨cl, hcl⟩ := parseRows_append_one c.rows
    { rowId := c.nextId, packet_id := p.packet_id, device_id := p.device_id,
      created_at := p.created_at.isoformat, payload_json := p.model_dump } p hrows
    (Packet.model_validate_model_dump p hp)
  refine ⟨cl ++ [⟨c.nextId, p⟩], hcl, ⟨c.nextId, p⟩, by simp, rfl, rfl⟩

/-- Witness for C2: one enqueue into the fresh queue, then a batch of 10. -/
theorem enqueue_dequeue_roundtrip_witness :
    ∃ entries, (OfflineCache.enqueue ⟨1, []⟩ samplePacket).dequeue_batch 10 = some entries ∧
      ∃ e ∈ entries, e.internal_id = 1 ∧ e.packet = samplePacket :=
  enqueue_dequeue_roundtrip ⟨1, []⟩ samplePacket 10
    ⟨by decide, by decide, by decide, by decide, by decide, by decide, trivial⟩
    ⟨List.Pairwise.nil, by simp⟩ (by decide) (by simp)

/-! ## Signing and the entry gate (claims C1, C6, C7, C8, C10) -/

/-- A concrete MAC-function instantiation (the message itself), used to
exhibit behaviour that holds for the abstract primitive. -/
def idHmac : HmacFn := fun _ msg => msg

def c1Key : DeviceKey := { device_id := "dev-1", key_id := "k1", secret := [1, 2, 3] }

theorem sign_eval (hmacFn : HmacFn) (p : Packet) (key : DeviceKey)
    (halg : key.algorithm = "HS256") :
    sign_packet_hmac hmacFn p key =
      .ok (hmacFn key.secret (serialize_packet_for_signing p)) := by
  unfold sign_packet_hmac
  rw [halg]
  simp

theorem verify_eval (hmacFn : HmacFn) (p : Packet) (key : DeviceKey)
    (halg : key.algorithm = "HS256") (sig : String) :
    verify_packet_hmac hmacFn p sig key =
      .ok ((hmacFn key.secret (serialize_packet_for_signing p)) == sig) := by
  unfold verify_packet_hmac
  rw [halg, sign_eval hmacFn p key halg]
  simp

/-- The packet of C1's failing input, and the same packet with the two `data`
entries inserted in the opposite order (equal as a key-value map). -/
def c1P1 : Packet := samplePacket

def c1P2 : Packet := { samplePacket with data := [("b", .str "2"), ("a", .str "1")] }

/-- C1 (refuted on the code): the canonical serialization is not stable under
the in-memory insertion order of the payload maps.  c1P1 and c1P2 agree on
every scalar field and are equal as key-value maps (same lookups, a
permutation of each other), yet _serialize_packet_for_signing — which passes
the dicts through Python repr, an insertion-ordered rendering — produces
different bytes, and so a MAC of those bytes can differ (shown for an
explicit MAC function). -/
theorem serialization_depends_on_insertion_order :
    c1P1.packet_id = c1P2.packet_id ∧ c1P1.device_id = c1P2.device_id ∧
    c1P1.created_at = c1P2.created_at ∧ c1P1.env = c1P2.env ∧
    c1P1.domain = c1P2.domain ∧ c1P1.packet_type = c1P2.packet_type ∧
    c1P1.priority = c1P2.priority ∧ c1P1.size_bytes = c1P2.size_bytes ∧
    c1P1.metadata = c1P2.metadata ∧
    (∀ k, jsonLookup c1P1.data k = jsonLookup c1P2.data k) ∧
    c1P1.data.Perm c1P2.data ∧
    serialize_packet_for_signing c1P1 ≠ serialize_packet_for_signing c1P2 ∧
    (∃ s1 s2, sign_packet_hmac idHmac c1P1 c1Key = .ok s1 ∧
      sign_packet_hmac idHmac c1P2 c1Key = .ok s2 ∧ s1 ≠ s2) := by
  refine ⟨rfl, rfl, rfl, rfl, rfl, rfl, rfl, rfl, rfl, ?_, ?_, ?_, ?_⟩
  · intro k
    by_cases ha : ("a" : String) = k
    · have hb : ¬ ("b" : String) = k := fun hb => absurd (ha.trans hb.symm) (by decide)
      simp [c1P1, c1P2, samplePacket, jsonLookup, ha, hb]
    · by_cases hb : ("b" : String) = k
      · simp [c1P1, c1P2, samplePacket, jsonLookup, ha, hb]
      · simp [c1P1, c1P2, samplePacket, jsonLookup, ha, hb]
  · exact List.Perm.swap _ _ _
  · decide
  · exact ⟨_, _, rfl, rfl, by decide⟩

/-- C6: for a key with the fixed algorithm tag, verifying the signature just
produced succeeds, and verifying any other signature string fails. -/
theorem verify_of_sign_roundtrip (hmacFn : HmacFn) (p : Packet) (key : DeviceKey)
    (halg : key.algorithm = "HS256") (s : String)
    (hs : sign_packet_hmac hmacFn p key = .ok s) :
    verify_packet_hmac hmacFn p s key = .ok true ∧
    ∀ s2, s2 ≠ s → verify_packet_hmac hmacFn p s2 key = .ok false := by
  have hs2 : hmacFn key.secret (serialize_packet_for_signing p) = s := by
    have := (sign_eval hmacFn p key halg).symm.trans hs
    exact Except.ok.inj this
  constructor
  · rw [verify_eval hmacFn p key halg, hs2]
    simp
  · intro s2 hne
    rw [verify_eval hmacFn p key halg, hs2]
    simp only [Except.ok.injEq]
    exact beq_eq_false_iff_ne.mpr (fun h => hne h.symm)

/-- Witness for C6 at a concrete packet, key and MAC function. -/
theorem verify_of_sign_roundtrip_witness :
    verify_packet_hmac idHmac samplePacket
      (serialize_packet_for_signing samplePacket) c1Key = .ok true :=
  (verify_of_sign_roundtrip idHmac samplePacket c1Key rfl
    (serialize_packet_for_signing samplePacket) rfl).1

/-- C10: a key whose algorithm tag is not HS256 makes both sign_packet_hmac
and verify_packet_hmac raise ValueError; with the HS256 tag neither raises. -/
theorem hmac_algorithm_guard (hmacFn : HmacFn) (p : Packet) (key : DeviceKey) :
    (key.algorithm ≠ "HS256" →
      sign_packet_hmac hmacFn p key =
        .error ("Unsupported algorithm for HMAC: " ++ key.algorithm) ∧
      ∀ s, verify_packet_hmac hmacFn p s key =
        .error ("Unsupported algorithm for HMAC: " ++ key.algorithm)) ∧
    (key.algorithm = "HS256" →
      sign_packet_hmac hmacFn p key =
        .ok (hmacFn key.secret (serialize_packet_for_signing p)) ∧
      ∀ s, verify_packet_hmac hmacFn p s key =
        .ok ((hmacFn key.secret (serialize_packet_for_signing p)) == s)) := by
  constructor
  · intro halg
    constructor
    · unfold sign_packet_hmac
      rw [if_pos halg]
    · intro s
      unfold verify_packet_hmac
      rw [if_pos halg]
  · intro halg
    exact ⟨sign_eval hmacFn p key halg, fun s => verify_eval hmacFn p key halg s⟩

/-- C7 counterexample: at a concrete packet with no registered key, the gate
fails, but with the reason string unknown_or_inactive_device — not the
claimed unknown_device_or_key. -/
theorem validate_entry_reason_string_counterexample :
    DeviceKeyStore.get_active_key ⟨[]⟩ samplePacket.device_id = none ∧
    validate_packet_entry idHmac samplePacket none ⟨[]⟩ global_risk_engine =
      .ok { ok := false, reason := some "unknown_or_inactive_device", blocked := true } ∧
    (∀ r : EntryValidationResult,
      validate_packet_entry idHmac samplePacket none ⟨[]⟩ global_risk_engine = .ok r →
        r.reason ≠ some "unknown_device_or_key" ∧ r.reason ≠ some "signature_mismatch") := by
  refine ⟨rfl, rfl, ?_⟩
  intro r h
  have hval : validate_packet_entry idHmac samplePacket none ⟨[]⟩ global_risk_engine =
      Except.ok { ok := false, reason := some "unknown_or_inactive_device", blocked := true } :=
    rfl
  rw [hval] at h
  cases Except.ok.inj h
  exact ⟨by decide, by decide⟩

/-- C7 (amended): the gate fails with reason unknown_or_inactive_device
exactly when no active key is registered for the packet's device; when a key
is found and a signature was supplied, it fails with reason invalid_signature
exactly when the supplied signature differs from the recomputed one, and
otherwise signature verification succeeds and the gate proceeds to the
scoring step, whose result never carries either signature failure reason. -/
theorem validate_entry_failure_reasons (hmacFn : HmacFn) (store : DeviceKeyStore)
    (engine : RiskScoringEngine) (p : Packet) :
    (store.get_active_key p.device_id = none →
      ∀ sig, validate_packet_entry hmacFn p sig store engine =
        .ok { ok := false, reason := some "unknown_or_inactive_device", blocked := true }) ∧
    (∀ key, store.get_active_key p.device_id = some key → key.algorithm = "HS256" →
      (∀ s, s ≠ hmacFn key.secret (serialize_packet_for_signing p) →
        validate_packet_entry hmacFn p (some s) store engine =
          .ok { ok := false, reason := some "invalid_signature", blocked := true }) ∧
      validate_packet_entry hmacFn p
          (some (hmacFn key.secret (serialize_packet_for_signing p))) store engine =
        .ok (riskStep engine p) ∧
      validate_packet_entry hmacFn p none store engine = .ok (riskStep engine p)) ∧
    ((riskStep engine p).reason = none ∨ (riskStep engine p).reason = some "ml_risk_block") := by
  refine ⟨?_, ?_, ?_⟩
  · intro hnone sig
    simp only [validate_packet_entry, hnone]
  · intro key hkey halg
    refine ⟨?_, ?_, ?_⟩
    · intro s hne
      simp only [validate_packet_entry, hkey, verify_eval hmacFn p key halg,
        beq_eq_false_iff_ne.mpr (fun h => hne h.symm)]
    · simp only [validate_packet_entry, hkey, verify_eval hmacFn p key halg,
        beq_self_eq_true]
    · simp only [validate_packet_entry, hkey]
  · unfold riskStep
    cases hsc : engine.score p
    · simp
    · by_cases hb : engine.should_block p = true <;> simp [hsc, hb]

/-- The threshold behaviour of the scoring step with a configured scorer and
the default thresholds (block at 9/10, elevated audit at 7/10). -/
theorem riskStep_thresholds (f : Packet → Rat) (p : Packet) :
    (riskStep { scorer := some f } p).risk_score = some (f p) ∧
    ((riskStep { scorer := some f } p).blocked = true ↔ 9/10 ≤ f p) ∧
    ((riskStep { scorer := some f } p).reason = some "ml_risk_block" ↔ 9/10 ≤ f p) ∧
    ((riskStep { scorer := some f } p).ok = true ↔ f p < 9/10) ∧
    ((riskStep { scorer := some f } p).strict_audit = true ↔ 7/10 ≤ f p) := by
  by_cases hb : (9 : Rat)/10 ≤ f p
  · have h7 : (7 : Rat)/10 ≤ f p := le_trans (by norm_num) hb
    have hnl : ¬ f p < 9/10 := not_lt.mpr hb
    simp [riskStep, RiskScoringEngine.score, RiskScoringEngine.should_block,
      RiskScoringEngine.should_strict_audit, hb, h7, hnl, decide_eq_true_iff]
  · have hlt : f p < 9/10 := not_le.mp hb
    simp [riskStep, RiskScoringEngine.score, RiskScoringEngine.should_block,
      RiskScoringEngine.should_strict_audit, hb, hlt, decide_eq_true_iff]

/-- C8: with a scorer configured and the default thresholds, once the key
lookup passes and the optional signature check passes (no signature, or the
correct one), the gate returns a blocked ml_risk_block failure with the
score attached exactly when the score reaches 9/10, flags strict audit
exactly when it reaches 7/10, and is ok exactly when the score stays below
9/10.  Float scores are modelled as rationals. -/
theorem ml_risk_gate_thresholds (hmacFn : HmacFn) (store : DeviceKeyStore) (p : Packet)
    (f : Packet → Rat) (key : DeviceKey) (sig : Option String)
    (hkey : store.get_active_key p.device_id = some key)
    (hsig : sig = none ∨ (key.algorithm = "HS256" ∧
      sig = some (hmacFn key.secret (serialize_packet_for_signing p)))) :
    ∃ r, validate_packet_entry hmacFn p sig store { scorer := some f } = .ok r ∧
      r.risk_score = some (f p) ∧
      (r.blocked = true ↔ 9/10 ≤ f p) ∧
      (r.reason = some "ml_risk_block" ↔ 9/10 ≤ f p) ∧
      (r.ok = true ↔ f p < 9/10) ∧
      (r.strict_audit = true ↔ 7/10 ≤ f p) := by
  rcases hsig with hnone | ⟨halg, hsome⟩
  · subst hnone
    refine ⟨riskStep { scorer := some f } p, ?_, riskStep_thresholds f p⟩
    simp only [validate_packet_entry, hkey]
  · subst hsome
    refine ⟨riskStep { scorer := some f } p, ?_, riskStep_thresholds f p⟩
    simp only [validate_packet_entry, hkey, verify_eval hmacFn p key halg,
      beq_self_eq_true]

/-- Witness for C8: a registered key, no signature header, and a scorer
returning 95/100. -/
theorem ml_risk_gate_thresholds_witness :
    ∃ r, validate_packet_entry idHmac samplePacket none ⟨[("dev-1", c1Key)]⟩
        { scorer := some (fun _ => 95/100) } = .ok r ∧
      r.risk_score = some ((fun _ => (95 : Rat)/100) samplePacket) ∧
      (r.blocked = true ↔ 9/10 ≤ (fun _ => (95 : Rat)/100) samplePacket) ∧
      (r.reason = some "ml_risk_block" ↔ 9/10 ≤ (fun _ => (95 : Rat)/100) samplePacket) ∧
      (r.ok = true ↔ (fun _ => (95 : Rat)/100) samplePacket < 9/10) ∧
      (r.strict_audit = true ↔ 7/10 ≤ (fun _ => (95 : Rat)/100) samplePacket) :=
  ml_risk_gate_thresholds idHmac ⟨[("dev-1", c1Key)]⟩ samplePacket
    (fun _ => 95/100) c1Key none rfl (Or.inl rfl)

end EEIA
